import Mathlib

/-
Verification of the Electronic Hardware Dealer backend (src/main.py,
src/schemas.py) against its specification.

The HTTP handlers in main.py are embedded as pure Lean functions over an
explicit store state. Monetary values (Python floats) are modelled as
exact rationals; store-generated identifiers as a counter stringified on
return. The document-store adapter (database.py, referenced by main.py
but not part of the provided sources) is modelled from the spec, section
4.1, as noted on each such definition.
-/

set_option autoImplicit false

namespace Shop

/-! ## Entity schemas (src/schemas.py) -/

/-- Embeds schemas.OrderItem: product_id, name, quantity (int, ge=1),
unit_price (float, ge=0). The numeric bounds are pydantic validation
constraints, modelled separately by `OrderItem.validate`. -/
structure OrderItem where
  product_id : String
  name : String
  quantity : Int
  unit_price : Rat
deriving DecidableEq, Repr

/-- Pydantic field constraints of schemas.OrderItem: quantity ge=1,
unit_price ge=0. -/
def OrderItem.validate (i : OrderItem) : Bool :=
  (1 ≤ i.quantity) && ((0 : Rat) ≤ i.unit_price)

/-- Embeds schemas.Product (request payload shape). -/
structure Product where
  name : String
  description : Option String
  price : Rat
  sku : Option String
  image_url : Option String
  category_id : String
  subcategory_id : Option String
  in_stock : Bool
  stock_qty : Option Int
deriving DecidableEq, Repr

/-! ## Request payloads (src/main.py) -/

/-- Embeds main.SignupRequest. -/
structure SignupRequest where
  name : String
  email : String
  password : String
deriving DecidableEq, Repr

/-- Embeds main.LoginRequest. -/
structure LoginRequest where
  email : String
  password : String
deriving DecidableEq, Repr

/-- Embeds main.PlaceOrderRequest. Note: `items` is a plain `List OrderItem`
with no minimum-length constraint in the source. -/
structure PlaceOrderRequest where
  user_id : String
  email : String
  items : List OrderItem
  notes : Option String
  shipping_name : Option String
  shipping_address : Option String
  shipping_phone : Option String
deriving DecidableEq, Repr

/-- Pydantic validation of a PlaceOrderRequest's items field: each item
must satisfy its field constraints; the list itself carries no length
constraint in the source. -/
def validateOrderItems (items : List OrderItem) : Bool :=
  items.all OrderItem.validate

/-- Modelled from the spec: pydantic's EmailStr format check (external
validator, not part of the sources) — exactly one "@", with nonempty
text on each side. -/
def isValidEmail (s : String) : Bool :=
  (s.data.count '@' == 1) && (s.data.head? != some '@') && (s.data.getLast? != some '@')

/-! ## Stored documents and the store state

database.py is imported by main.py but absent from the sources; the
adapter contract is modelled from the spec, section 4.1: createDocument
inserts and returns the generated identifier as a string, getDocuments
returns matching documents capped at a limit (default 100). Generated
identifiers are modelled by a monotone counter. -/

/-- A persisted User document (schemas.User plus generated id). -/
structure UserDoc where
  id : Nat
  name : String
  email : String
  hashed_password : String
  role : String
  is_active : Bool
deriving DecidableEq, Repr

/-- A persisted Category document (schemas.Category plus generated id). -/
structure CategoryDoc where
  id : Nat
  name : String
  parent_id : Option String
  description : Option String
deriving DecidableEq, Repr

/-- A persisted Product document. -/
structure ProductDoc extends Product where
  id : Nat
deriving DecidableEq, Repr

/-- A persisted Order document (schemas.Order plus generated id). -/
structure OrderDoc where
  id : Nat
  user_id : String
  email : String
  items : List OrderItem
  subtotal : Rat
  tax : Rat
  total : Rat
  status : String
  notes : Option String
  shipping_name : Option String
  shipping_address : Option String
  shipping_phone : Option String
deriving DecidableEq, Repr

/-- Modelled from the spec: the document store's state — one collection
per entity, plus the counter from which generated identifiers are drawn.
All claims are stated "with the store available", so the state is the
connected store itself. -/
structure Store where
  users : List UserDoc
  categories : List CategoryDoc
  products : List ProductDoc
  orders : List OrderDoc
  nextId : Nat
deriving DecidableEq, Repr

/-- HTTP-level failure (fastapi.HTTPException): status code and detail. -/
inductive ApiError where
  | http (status : Nat) (detail : String)
deriving DecidableEq, Repr

/-! ## Auth handlers (main.py lines 41-59) -/

/-- Response payload of POST /auth/signup: user_id and email. -/
structure SignupResponse where
  user_id : String
  email : String
deriving DecidableEq, Repr

/-- Response payload of POST /auth/login: user_id, name, email. -/
structure LoginResponse where
  user_id : String
  name : String
  email : String
deriving DecidableEq, Repr

/-- Embeds main.signup: finds an existing user by exact email, fails 400
"Email already registered" if found, otherwise inserts a User with
hashed_password set to the raw password and returns the new id. -/
def signup (p : SignupRequest) (s : Store) : Except ApiError SignupResponse × Store :=
  match s.users.find? (fun u => u.email == p.email) with
  | some _ => (Except.error (ApiError.http 400 "Email already registered"), s)
  | none =>
      let u : UserDoc :=
        { id := s.nextId, name := p.name, email := p.email
          hashed_password := p.password, role := "customer", is_active := true }
      (Except.ok { user_id := toString s.nextId, email := p.email },
       { s with users := s.users ++ [u], nextId := s.nextId + 1 })

/-- Embeds main.login: finds a user by exact email; fails 401 "Invalid
credentials" if absent or if the stored hashed_password differs from the
supplied password; otherwise returns user_id, name, email. -/
def login (p : LoginRequest) (s : Store) : Except ApiError LoginResponse × Store :=
  match s.users.find? (fun u => u.email == p.email) with
  | none => (Except.error (ApiError.http 401 "Invalid credentials"), s)
  | some u =>
      if u.hashed_password ≠ p.password then
        (Except.error (ApiError.http 401 "Invalid credentials"), s)
      else
        (Except.ok { user_id := toString u.id, name := u.name, email := u.email }, s)

/-! ## Category listing (main.py lines 62-73) -/

/-- A category as returned by GET /categories: identifier stringified,
other fields as stored. -/
structure CategoryOut where
  id : String
  name : String
  parent_id : Option String
  description : Option String
deriving DecidableEq, Repr

/-- Stringifies a stored category's identifier, as list_categories does
before grouping. -/
def stringifyCategory (c : CategoryDoc) : CategoryOut :=
  { id := toString c.id, name := c.name, parent_id := c.parent_id
    description := c.description }

/-- Embeds the `by_parent.setdefault(parent, []).append(c)` step of
main.list_categories over an insertion-ordered association list, the
model of a Python dict. -/
def addToGroup : List (Option String × List CategoryOut) → Option String → CategoryOut →
    List (Option String × List CategoryOut)
  | [], k, c => [(k, [c])]
  | (k', cs) :: rest, k, c =>
      if k' = k then (k', cs ++ [c]) :: rest else (k', cs) :: addToGroup rest k c

/-- Embeds the grouping loop of main.list_categories: fold the retrieved
categories into a dict keyed by their parent_id value. -/
def by_parent (cats : List CategoryDoc) : List (Option String × List CategoryOut) :=
  cats.foldl (fun g c => addToGroup g c.parent_id (stringifyCategory c)) []

/-- Looks a key up in the grouping dict; a missing key holds no
categories. -/
def groupGet : List (Option String × List CategoryOut) → Option String → List CategoryOut
  | [], _ => []
  | (k', cs) :: rest, k => if k' = k then cs else groupGet rest k

/-- Modelled from the spec: getDocuments("category") — the retrieved
Category documents, capped at the adapter's default limit of 100. -/
def get_documents_category (s : Store) : List CategoryDoc :=
  s.categories.take 100

/-- Embeds main.list_categories: retrieve categories, stringify ids, and
group by parent_id. A read: the store is returned unchanged. -/
def list_categories (s : Store) : List (Option String × List CategoryOut) × Store :=
  (by_parent (get_documents_category s), s)

/-! ## Product handlers (main.py lines 83-110) -/

/-- Hex digit as accepted by bson.ObjectId's string form. -/
def isHexChar (c : Char) : Bool :=
  (('0' ≤ c) && (c ≤ '9')) || (('a' ≤ c) && (c ≤ 'f')) || (('A' ≤ c) && (c ≤ 'F'))

/-- Modelled from the spec: bson.ObjectId(string) succeeds exactly on a
24-character hexadecimal string (the syntactic identifier-format check). -/
def isValidObjectId (s : String) : Bool :=
  (s.length == 24) && s.data.all isHexChar

/-- Embeds main.create_product: `if prod.category_id:` (Python truthiness,
so the check is skipped for the empty string) then the ObjectId format
check, failing 400 "Invalid category_id"; otherwise insert and return the
new id. -/
def create_product (p : Product) (s : Store) : Except ApiError String × Store :=
  if p.category_id ≠ "" && !isValidObjectId p.category_id then
    (Except.error (ApiError.http 400 "Invalid category_id"), s)
  else
    (Except.ok (toString s.nextId),
     { s with products := s.products ++ [{ p with id := s.nextId }],
              nextId := s.nextId + 1 })

/-- A product as returned by GET /products: identifier stringified. -/
structure ProductOut extends Product where
  id : String
deriving DecidableEq, Repr

/-- Stringifies a stored product's identifier, as list_products does. -/
def stringifyProduct (d : ProductDoc) : ProductOut :=
  { d.toProduct with id := toString d.id }

/-- The filter dict built by main.list_products: optional exact-match
clauses on category_id and subcategory_id, optional case-insensitive
pattern clause on name. -/
structure ProductFilter where
  category_id : Option String
  subcategory_id : Option String
  name_pattern : Option String
deriving DecidableEq, Repr

/-- Python truthiness of an optional string parameter: None and the empty
string both fail `if x:`, so neither contributes a clause. -/
def truthyOpt : Option String → Option String
  | none => none
  | some s => if s = "" then none else some s

/-- Embeds the filter_dict construction of main.list_products (lines
100-106): a clause is added only when the parameter is truthy. -/
def build_filter (category_id subcategory_id q : Option String) : ProductFilter :=
  { category_id := truthyOpt category_id
    subcategory_id := truthyOpt subcategory_id
    name_pattern := truthyOpt q }

/-- Lower-cases a string to its character list, for case-insensitive
matching. -/
def lowerChars (s : String) : List Char :=
  s.data.map Char.toLower

/-- Whether the second list occurs at the head of the first. -/
def startsWithChars : List Char → List Char → Bool
  | _, [] => true
  | [], _ :: _ => false
  | a :: as, b :: bs => (a == b) && startsWithChars as bs

/-- Whether the second list occurs contiguously anywhere in the first. -/
def containsSubChars : List Char → List Char → Bool
  | [], pat => pat.isEmpty
  | a :: rest, pat => startsWithChars (a :: rest) pat || containsSubChars rest pat

/-- Case-insensitive substring match of the pattern against the name —
the spec's reading of the name clause for plain (metacharacter-free)
patterns such as "cable". -/
def nameMatchesCI (name pat : String) : Bool :=
  containsSubChars (lowerChars name) (lowerChars pat)

/-- Whether a stored product satisfies every clause of the filter; an
absent clause imposes no constraint. -/
def matchesFilter (f : ProductFilter) (p : ProductDoc) : Bool :=
  (match f.category_id with
   | none => true
   | some c => p.category_id == c) &&
  (match f.subcategory_id with
   | none => true
   | some c => p.subcategory_id == some c) &&
  (match f.name_pattern with
   | none => true
   | some q => nameMatchesCI p.name q)

/-- Modelled from the spec: getDocuments("product", filter, limit) —
documents matching the equality/pattern filter, capped at the limit. -/
def get_documents_product (s : Store) (f : ProductFilter) (limit : Nat) : List ProductDoc :=
  (s.products.filter (matchesFilter f)).take limit

/-- Embeds main.list_products: build the filter from the truthy query
parameters, retrieve matching products capped at limit (default 100),
stringify ids. A read: the store is returned unchanged. -/
def list_products (category_id subcategory_id q : Option String) (limit : Nat)
    (s : Store) : List ProductOut × Store :=
  ((get_documents_product s (build_filter category_id subcategory_id q) limit).map
      stringifyProduct, s)

/-! ## Order handler (main.py lines 122-147) -/

/-- Embeds `sum(i.quantity * i.unit_price for i in payload.items)`:
Python's sum is a left fold from 0. -/
def computeSubtotal (items : List OrderItem) : Rat :=
  items.foldl (fun acc i => acc + (i.quantity : Rat) * i.unit_price) 0

/-- Response payload of POST /orders: order_id and total. -/
structure OrderResponse where
  order_id : String
  total : Rat
deriving DecidableEq, Repr

/-- Embeds main.place_order: compute subtotal, tax = 0, total =
subtotal + tax, persist one Order document, return the new id and the
total. -/
def place_order (p : PlaceOrderRequest) (s : Store) : Except ApiError OrderResponse × Store :=
  let subtotal := computeSubtotal p.items
  let tax : Rat := 0
  let total := subtotal + tax
  let o : OrderDoc :=
    { id := s.nextId, user_id := p.user_id, email := p.email, items := p.items
      subtotal := subtotal, tax := tax, total := total, status := "placed"
      notes := p.notes, shipping_name := p.shipping_name
      shipping_address := p.shipping_address, shipping_phone := p.shipping_phone }
  (Except.ok { order_id := toString s.nextId, total := total },
   { s with orders := s.orders ++ [o], nextId := s.nextId + 1 })

/-! ## Example fixtures -/

/-- A store with every collection empty. -/
def emptyStore : Store :=
  { users := [], categories := [], products := [], orders := [], nextId := 0 }

/-- The order items of the spec's worked example: quantity 2 at 10.0 and
quantity 1 at 5.5. -/
def exampleItems : List OrderItem :=
  [{ product_id := "p1", name := "Cable", quantity := 2, unit_price := 10 },
   { product_id := "p2", name := "Adapter", quantity := 1, unit_price := 5.5 }]

/-- The order payload of the spec's worked example. -/
def examplePayload : PlaceOrderRequest :=
  { user_id := "u1", email := "a@b.com", items := exampleItems
    notes := none, shipping_name := none, shipping_address := none
    shipping_phone := none }

/-! ## Theorems -/

/-- C1: for every order placement with the store available, the response
total equals subtotal + tax where subtotal is the sum over the items of
quantity times unit_price and tax is 0; the persisted Order document
records exactly these values; and on the spec's worked example the
subtotal is 25.5, the tax is 0, and the response carries total 25.5. -/
theorem place_order_totals (s : Store) (p : PlaceOrderRequest) :
    (place_order p s).1
      = Except.ok { order_id := toString s.nextId, total := computeSubtotal p.items + 0 }
    ∧ (∃ o : OrderDoc, (place_order p s).2.orders = s.orders ++ [o]
        ∧ o.subtotal = computeSubtotal p.items ∧ o.tax = 0 ∧ o.total = o.subtotal + o.tax)
    ∧ computeSubtotal exampleItems = 25.5
    ∧ (place_order examplePayload s).1
      = Except.ok { order_id := toString s.nextId, total := 25.5 } := by
  refine ⟨rfl, ⟨_, rfl, rfl, rfl, rfl⟩, ?_, ?_⟩
  · norm_num [computeSubtotal, exampleItems]
  · have h : computeSubtotal exampleItems + 0 = 25.5 := by
      norm_num [computeSubtotal, exampleItems]
    simp [place_order, examplePayload, h]

/-- An order payload with an empty items list. -/
def emptyItemsPayload : PlaceOrderRequest :=
  { user_id := "u1", email := "a@b.com", items := []
    notes := none, shipping_name := none, shipping_address := none
    shipping_phone := none }

/-- C4 counterexample: a request with zero items is NOT rejected — the
empty items list passes the pydantic validation (no minimum-length
constraint on PlaceOrderRequest.items) and place_order succeeds with
total 0, inserting an order. -/
theorem place_order_empty_items_accepted :
    validateOrderItems [] = true
    ∧ (place_order emptyItemsPayload emptyStore).1
        = Except.ok { order_id := "0", total := 0 }
    ∧ (place_order emptyItemsPayload emptyStore).2.orders.length = 1 := by
  refine ⟨rfl, ?_, rfl⟩
  simp [place_order, emptyItemsPayload, computeSubtotal]
  decide

/-- C4 (amended): the pydantic validation of an order payload's items
rejects exactly when some item has quantity < 1 or unit_price < 0; an
empty items list is accepted (and place_order then succeeds with
subtotal 0, as shown by the counterexample). The check is a pure
function of the payload, performed before any store access. -/
theorem validateOrderItems_false_iff (items : List OrderItem) :
    validateOrderItems items = false
      ↔ ∃ i ∈ items, i.quantity < 1 ∨ i.unit_price < 0 := by
  rw [validateOrderItems, ← Bool.not_eq_true, List.all_eq_true]
  push_neg
  constructor
  · rintro ⟨i, hi, h⟩
    refine ⟨i, hi, ?_⟩
    by_contra hc
    push_neg at hc
    exact h (by simp [OrderItem.validate, hc.1, hc.2])
  · rintro ⟨i, hi, h⟩
    refine ⟨i, hi, fun hv => ?_⟩
    simp only [OrderItem.validate, Bool.and_eq_true, decide_eq_true_eq] at hv
    rcases h with h | h
    · omega
    · exact absurd hv.2 (not_le.mpr h)

/-- A product whose category_id is a malformed, non-empty identifier. -/
def productBadId : Product :=
  { name := "Cable", description := none, price := 10, sku := none
    image_url := none, category_id := "not-a-valid-id", subcategory_id := none
    in_stock := true, stock_qty := none }

/-- A product whose category_id is the empty string. -/
def productEmptyId : Product :=
  { name := "Cable", description := none, price := 10, sku := none
    image_url := none, category_id := "", subcategory_id := none
    in_stock := true, stock_qty := none }

/-- C5 counterexample: the empty string is not a syntactically valid
store identifier, yet a product whose category_id is "" is NOT rejected:
Python truthiness (`if prod.category_id:`) skips the format check and
the document is inserted. -/
theorem create_product_empty_id_accepted :
    isValidObjectId "" = false
    ∧ (create_product productEmptyId emptyStore).1 = Except.ok "0"
    ∧ (create_product productEmptyId emptyStore).2.products.length = 1 := by
  refine ⟨rfl, ?_, ?_⟩
  · simp [create_product, productEmptyId, emptyStore]
    decide
  · simp [create_product, productEmptyId, emptyStore]

/-- C5 (amended): for every product-creation request with the store
available whose category_id is NON-EMPTY and not a syntactically valid
store identifier (e.g. "not-a-valid-id"), the request fails with the
client error 400 "Invalid category_id" and the store is unchanged (no
document inserted); the empty string bypasses the check. -/
theorem create_product_rejects_invalid_category_id (p : Product) (s : Store)
    (hne : p.category_id ≠ "") (hbad : isValidObjectId p.category_id = false) :
    (create_product p s).1 = Except.error (ApiError.http 400 "Invalid category_id")
    ∧ (create_product p s).2 = s := by
  constructor <;> simp [create_product, hne, hbad]

/-- Witness for C5's amended theorem at the concrete malformed
identifier "not-a-valid-id" on the empty store. -/
theorem create_product_rejects_invalid_category_id_witness :
    (create_product productBadId emptyStore).1
        = Except.error (ApiError.http 400 "Invalid category_id")
    ∧ (create_product productBadId emptyStore).2 = emptyStore :=
  create_product_rejects_invalid_category_id productBadId emptyStore
    (by decide) (by decide)

/-- C9: GET /categories and GET /products leave the store unchanged, and
repeating either call on the resulting state returns the same result set
(read idempotence and determinism over a fixed store state). -/
theorem list_reads_idempotent (s : Store) (oc osc oq : Option String) (limit : Nat) :
    (list_categories s).2 = s
    ∧ (list_products oc osc oq limit s).2 = s
    ∧ (list_categories ((list_categories s).2)).1 = (list_categories s).1
    ∧ (list_products oc osc oq limit ((list_products oc osc oq limit s).2)).1
        = (list_products oc osc oq limit s).1 :=
  ⟨rfl, rfl, rfl, rfl⟩

/-- C10: in product listing, a query parameter supplied as the empty
string is treated identically to an absent parameter — it contributes no
clause to the filter, so the whole call returns the same value. -/
theorem list_products_empty_param_like_absent (s : Store) (oc osc oq : Option String)
    (limit : Nat) :
    list_products (some "") osc oq limit s = list_products none osc oq limit s
    ∧ list_products oc (some "") oq limit s = list_products oc none oq limit s
    ∧ list_products oc osc (some "") limit s = list_products oc osc none limit s :=
  ⟨rfl, rfl, rfl⟩

/-- A registered user, for concrete auth scenarios. -/
def aliceUser : UserDoc :=
  { id := 0, name := "Alice", email := "a@b.com", hashed_password := "pw"
    role := "customer", is_active := true }

/-- A store holding exactly the one registered user. -/
def oneUserStore : Store :=
  { users := [aliceUser], categories := [], products := [], orders := []
    nextId := 1 }

/-- Finding in an appended list starts over on the right part when the
left part holds no match. -/
theorem find?_append_of_none {A : Type} (p : A → Bool) (l1 l2 : List A)
    (h : l1.find? p = none) : (l1 ++ l2).find? p = l2.find? p := by
  rw [List.find?_append, h, Option.none_or]

/-- C3: for every valid signup payload whose email is fresh (no stored
user has it), signup succeeds returning the new user_id, and a login
with the same email and password on the resulting store succeeds and
returns that same user_id. -/
theorem signup_then_login_same_user (s : Store) (p : SignupRequest)
    (_hval : isValidEmail p.email = true)
    (hfresh : ∀ u ∈ s.users, u.email ≠ p.email) :
    (signup p s).1 = Except.ok { user_id := toString s.nextId, email := p.email }
    ∧ (login { email := p.email, password := p.password } (signup p s).2).1
        = Except.ok { user_id := toString s.nextId, name := p.name, email := p.email } := by
  have hn : s.users.find? (fun v => v.email == p.email) = none :=
    List.find?_eq_none.mpr (fun u hu => by simpa using hfresh u hu)
  constructor
  · simp [signup, hn]
  · simp only [signup, hn, login]
    rw [find?_append_of_none _ _ _ hn]
    simp [List.find?]

/-- Witness for C3 on the empty store with a concrete fresh payload. -/
theorem signup_then_login_same_user_witness :
    (signup { name := "Alice", email := "a@b.com", password := "pw" } emptyStore).1
      = Except.ok { user_id := "0", email := "a@b.com" }
    ∧ (login { email := "a@b.com", password := "pw" }
        (signup { name := "Alice", email := "a@b.com", password := "pw" } emptyStore).2).1
      = Except.ok { user_id := "0", name := "Alice", email := "a@b.com" } :=
  signup_then_login_same_user emptyStore
    { name := "Alice", email := "a@b.com", password := "pw" }
    (by decide) (by simp [emptyStore])

/-- C6: for every login request with the store available, an unknown
email and a wrong password both produce the identical 401 "Invalid
credentials" error; when a user with the email is found and the stored
password equals the supplied one, login succeeds returning user_id,
name, email; and login never changes the store. -/
theorem login_error_cases (s : Store) (p : LoginRequest) :
    ((∀ u ∈ s.users, u.email ≠ p.email) →
      (login p s).1 = Except.error (ApiError.http 401 "Invalid credentials"))
    ∧ (∀ u, s.users.find? (fun v => v.email == p.email) = some u →
        u.hashed_password ≠ p.password →
        (login p s).1 = Except.error (ApiError.http 401 "Invalid credentials"))
    ∧ (∀ u, s.users.find? (fun v => v.email == p.email) = some u →
        u.hashed_password = p.password →
        (login p s).1
          = Except.ok { user_id := toString u.id, name := u.name, email := u.email })
    ∧ (login p s).2 = s := by
  refine ⟨?_, ?_, ?_, ?_⟩
  · intro h
    have hn : s.users.find? (fun v => v.email == p.email) = none :=
      List.find?_eq_none.mpr (fun u hu => by simpa using h u hu)
    simp [login, hn]
  · intro u hu hne
    simp [login, hu, hne]
  · intro u hu he
    simp [login, hu, he]
  · unfold login
    cases s.users.find? (fun v => v.email == p.email) with
    | none => rfl
    | some u => by_cases h : u.hashed_password = p.password <;> simp [h]

/-- Witness for C6 at a wrong password against the one-user store. -/
theorem login_error_cases_witness :
    (login { email := "a@b.com", password := "wrong" } oneUserStore).1
      = Except.error (ApiError.http 401 "Invalid credentials") :=
  (login_error_cases oneUserStore { email := "a@b.com", password := "wrong" }).2.1
    aliceUser (by decide) (by decide)

/-- C7: for every signup request whose email already belongs to a stored
user, signup fails with the 400 "Email already registered" client error
regardless of the supplied password, and the store is unchanged. -/
theorem signup_duplicate_email_rejected (s : Store) (p : SignupRequest) (u : UserDoc)
    (hu : u ∈ s.users) (he : u.email = p.email) :
    (signup p s).1 = Except.error (ApiError.http 400 "Email already registered")
    ∧ (signup p s).2 = s := by
  have hsome : (s.users.find? (fun v => v.email == p.email)).isSome :=
    List.find?_isSome.mpr ⟨u, hu, by simp [he]⟩
  obtain ⟨v, hv⟩ := Option.isSome_iff_exists.mp hsome
  constructor <;> simp [signup, hv]

/-- Witness for C7: reusing the registered email with a different
password is rejected and leaves the store as it was. -/
theorem signup_duplicate_email_rejected_witness :
    (signup { name := "Bob", email := "a@b.com", password := "other" } oneUserStore).1
      = Except.error (ApiError.http 400 "Email already registered")
    ∧ (signup { name := "Bob", email := "a@b.com", password := "other" } oneUserStore).2
      = oneUserStore :=
  signup_duplicate_email_rejected oneUserStore
    { name := "Bob", email := "a@b.com", password := "other" }
    aliceUser (by decide) (by decide)

/-- Root category for the spec's A/B/C scenario. -/
def catA : CategoryDoc :=
  { id := 1, name := "A", parent_id := none, description := none }

/-- Child of A (parent_id points at A's identifier). -/
def catB : CategoryDoc :=
  { id := 2, name := "B", parent_id := some "1", description := none }

/-- Grandchild: child of B. -/
def catC : CategoryDoc :=
  { id := 3, name := "C", parent_id := some "2", description := none }

/-- A store holding exactly the categories A, B, C. -/
def threeCatStore : Store :=
  { users := [], categories := [catA, catB, catC], products := [], orders := []
    nextId := 4 }

/-- One grouping step appends the category to its own parent's group and
leaves every other group unchanged. -/
theorem groupGet_addToGroup (g : List (Option String × List CategoryOut))
    (k' k : Option String) (c : CategoryOut) :
    groupGet (addToGroup g k' c) k
      = if k' = k then groupGet g k ++ [c] else groupGet g k := by
  induction g with
  | nil =>
    by_cases h : k' = k <;> simp [addToGroup, groupGet, h]
  | cons hd tl ih =>
    obtain ⟨a, cs⟩ := hd
    by_cases h1 : a = k'
    · subst h1
      by_cases h2 : a = k <;> simp [addToGroup, groupGet, h2]
    · by_cases h2 : a = k
      · subst h2
        have hk : ¬ k' = a := fun he => h1 he.symm
        simp [addToGroup, groupGet, h1, hk]
      · simp [addToGroup, groupGet, h1, h2, ih]

/-- Folding categories into the dict: each key's group ends up holding
exactly the categories whose parent_id equals that key, stringified, in
retrieval order, after whatever the accumulator already held. -/
theorem groupGet_foldl (cats : List CategoryDoc)
    (g : List (Option String × List CategoryOut)) (k : Option String) :
    groupGet (cats.foldl (fun acc c => addToGroup acc c.parent_id (stringifyCategory c)) g) k
      = groupGet g k
        ++ (cats.filter (fun c => c.parent_id == k)).map stringifyCategory := by
  induction cats generalizing g with
  | nil => simp
  | cons c cs ih =>
    rw [List.foldl_cons, ih, groupGet_addToGroup]
    by_cases h : c.parent_id = k
    · simp [h, List.filter_cons]
    · simp [h, List.filter_cons]

/-- C2: category listing groups only by direct parent_id — for every
key, the group under that key is exactly the sequence of retrieved
categories whose parent_id equals the key; on the concrete scenario
A (root), B (parent A), C (parent B), the listing puts A under the
no-parent key, B under A's key and C under B's key, and C does not
appear under A's key. -/
theorem list_categories_single_level_grouping (s : Store) (k : Option String) :
    groupGet (list_categories s).1 k
      = ((get_documents_category s).filter (fun c => c.parent_id == k)).map stringifyCategory
    ∧ (list_categories threeCatStore).1
      = [(none, [stringifyCategory catA]), (some "1", [stringifyCategory catB]),
         (some "2", [stringifyCategory catC])]
    ∧ stringifyCategory catC ∉ groupGet (list_categories threeCatStore).1 (some "1")
    ∧ stringifyCategory catC ∈ groupGet (list_categories threeCatStore).1 (some "2") := by
  refine ⟨?_, by decide, by decide, by decide⟩
  show groupGet (by_parent (get_documents_category s)) k = _
  rw [by_parent, groupGet_foldl]
  simp [groupGet]

/-- Unpacks a successful filter match into its three optional clauses. -/
theorem matchesFilter_spec (f : ProductFilter) (d : ProductDoc)
    (h : matchesFilter f d = true) :
    (∀ x, f.category_id = some x → d.category_id = x)
    ∧ (∀ x, f.subcategory_id = some x → d.subcategory_id = some x)
    ∧ (∀ x, f.name_pattern = some x → nameMatchesCI d.name x = true) := by
  rw [matchesFilter, Bool.and_eq_true, Bool.and_eq_true] at h
  obtain ⟨⟨h1, h2⟩, h3⟩ := h
  refine ⟨?_, ?_, ?_⟩
  · intro x hx
    rw [hx] at h1
    exact beq_iff_eq.mp h1
  · intro x hx
    rw [hx] at h2
    exact beq_iff_eq.mp h2
  · intro x hx
    rwa [hx] at h3

/-- A stored product whose name contains "cable" up to letter case. -/
def cableProduct : ProductDoc :=
  { name := "USB Cable", description := none, price := 10, sku := none
    image_url := none, category_id := "0123456789abcdef01234567", subcategory_id := none
    in_stock := true, stock_qty := none, id := 1 }

/-- A stored product whose name does not contain "cable". -/
def mouseProduct : ProductDoc :=
  { name := "Mouse", description := none, price := 5, sku := none
    image_url := none, category_id := "0123456789abcdef01234567", subcategory_id := none
    in_stock := true, stock_qty := none, id := 2 }

/-- A store holding the two products above. -/
def productStore : Store :=
  { users := [], categories := [], products := [cableProduct, mouseProduct]
    orders := [], nextId := 3 }

/-- C8: product listing caps its result at limit; with no parameters
supplied the filter is empty and every stored product (up to limit) is
returned; a supplied category_id or subcategory_id constrains the
results to exact matches; and a supplied q constrains every returned
product's name to contain q case-insensitively. -/
theorem list_products_filter_spec (s : Store) (c sc qs : String)
    (oc osc oq : Option String) (limit : Nat)
    (hc : c ≠ "") (hsc : sc ≠ "") (hq : qs ≠ "") :
    (list_products oc osc oq limit s).1.length ≤ limit
    ∧ (list_products none none none limit s).1
        = (s.products.take limit).map stringifyProduct
    ∧ (∀ p ∈ (list_products (some c) osc oq limit s).1, p.category_id = c)
    ∧ (∀ p ∈ (list_products oc (some sc) oq limit s).1, p.subcategory_id = some sc)
    ∧ (∀ p ∈ (list_products oc osc (some qs) limit s).1, nameMatchesCI p.name qs = true) := by
  refine ⟨?_, ?_, ?_, ?_, ?_⟩
  · simp [list_products, get_documents_product, List.length_take]
  · have hf : s.products.filter (matchesFilter (build_filter none none none))
        = s.products := List.filter_eq_self.mpr (fun a _ => rfl)
    simp [list_products, get_documents_product, hf]
  · intro p hp
    simp only [list_products, List.mem_map] at hp
    obtain ⟨d, hd, rfl⟩ := hp
    have hm := List.of_mem_filter (List.mem_of_mem_take hd)
    exact (matchesFilter_spec _ _ hm).1 c (by simp [build_filter, truthyOpt, hc])
  · intro p hp
    simp only [list_products, List.mem_map] at hp
    obtain ⟨d, hd, rfl⟩ := hp
    have hm := List.of_mem_filter (List.mem_of_mem_take hd)
    exact (matchesFilter_spec _ _ hm).2.1 sc (by simp [build_filter, truthyOpt, hsc])
  · intro p hp
    simp only [list_products, List.mem_map] at hp
    obtain ⟨d, hd, rfl⟩ := hp
    have hm := List.of_mem_filter (List.mem_of_mem_take hd)
    exact (matchesFilter_spec _ _ hm).2.2 qs (by simp [build_filter, truthyOpt, hq])

/-- Witness for C8 at q = "cable" on the two-product store: the matching
product returned by the listing has "cable" in its name up to case. -/
theorem list_products_filter_spec_witness :
    nameMatchesCI (stringifyProduct cableProduct).name "cable" = true :=
  (list_products_filter_spec productStore "x" "y" "cable" none none (some "cable") 100
    (by decide) (by decide) (by decide)).2.2.2.2
    (stringifyProduct cableProduct) (by decide)

end Shop
